import Mathlib

/-!
Verification of the cloud-vote-app server (src/app/server.js).

The write path is the POST /vote handler; the read path is the
GET /api/live-data handler.  Both talk to a shared MySQL store through one
helper, pool.query(sql, params), which binds parameters positionally.  The
embedding below models each handler as a pure function of the request
input, the fault outcome of each store round trip, and the store contents;
store assigned fields (auto increment id, created_at) are modelled
explicitly where a claim needs them.
-/

namespace CloudVote

/-- One statement handed to the query executor: the SQL text and the
positionally bound parameters, mirroring pool.query(sql, params). -/
structure IssuedQuery where
  sql : String
  params : List String
deriving DecidableEq

/-- SQL text of the vote insert issued by the POST /vote handler. -/
def voteInsertSql : String := "INSERT INTO votes (candidate) VALUES (?)"

/-- SQL text of the audit insert issued by the POST /vote handler. -/
def auditInsertSql : String :=
  "INSERT INTO system_logs (event_type, message, pod_id) VALUES (?, ?, ?)"

/-- The replica identity: the HOSTNAME environment value or os.hostname().
Its concrete value is environment supplied and no claim depends on it. -/
def POD_ID : String := "cloud-vote-replica"

/-- One audit row as written by the vote path.  The store assigned id and
created_at are never observed by the write path and are omitted here; the
read side models full system_logs rows separately. -/
structure AuditRow where
  event_type : String
  message : String
  pod_id : String
deriving DecidableEq

/-- The shared relational store as visible to the application: the votes
table (one candidate string per row) and the system_logs table. -/
structure Store where
  votes : List String
  logs : List AuditRow
deriving DecidableEq

/-- A JSON response of the write endpoint: HTTP status code plus the
status field and the optional message field of the body. -/
structure JsonResponse where
  httpStatus : Nat
  status : String
  message : Option String
deriving DecidableEq

/-- Result of one POST /vote request: the response sent to the caller, the
store after the request, and the queries issued to the executor in order. -/
structure CastResult where
  response : JsonResponse
  store : Store
  trace : List IssuedQuery
deriving DecidableEq

/-- JavaScript disjunction a || b on string valued operands: undefined
(none) and the empty string are falsy, so the right operand is returned in
those cases.  Mirrors the clientIp computation from the forwarded header
and the socket remote address. -/
def jsOrString : Option String → Option String → Option String
  | some s, b => if s = "" then b else some s
  | none, b => b

/-- The POST /vote handler, parameterized by the request input (candidate
from the body; the forwarded header and the socket remote address, either
possibly absent) and by fault injection for the two inserts:
voteInsertFails makes the awaited vote insert reject and
auditInsertFails makes the fire and forget audit insert reject.
Control flow follows the source line by line: validate the candidate
before any query; await the vote insert inside try; build the audit
message from clientIp (this throws into the catch block when clientIp is
undefined, after the vote row is already durable); issue the audit insert
without awaiting it; answer success.  A rejected audit insert is caught by
the attached catch handler and never reaches the response. -/
def castVote (candidate : String) (xff remoteAddr : Option String)
    (voteInsertFails auditInsertFails : Bool) (store : Store) : CastResult :=
  let clientIp := jsOrString xff remoteAddr
  if candidate = "aws" ∨ candidate = "azure" then
    let voteQ : IssuedQuery := ⟨voteInsertSql, [candidate]⟩
    if voteInsertFails then
      ⟨⟨500, "error", some "Transaction failed"⟩, store, [voteQ]⟩
    else
      let store1 : Store := ⟨store.votes ++ [candidate], store.logs⟩
      match clientIp with
      | none =>
        ⟨⟨500, "error", some "Transaction failed"⟩, store1, [voteQ]⟩
      | some ip =>
        let logMsg :=
          "Vote confirmed for " ++ candidate.toUpper ++ " via " ++ (ip.splitOn ",").headD ""
        let auditQ : IssuedQuery := ⟨auditInsertSql, ["VOTE_TX", logMsg, POD_ID]⟩
        let store2 : Store :=
          if auditInsertFails then store1
          else ⟨store1.votes, store1.logs ++ [⟨"VOTE_TX", logMsg, POD_ID⟩]⟩
        ⟨⟨200, "success", none⟩, store2, [voteQ, auditQ]⟩
  else
    ⟨⟨400, "error", some "Invalid candidate"⟩, store, []⟩

/-- JavaScript property assignment on the votes object, kept in insertion
order: assignment to an existing key updates it in place, assignment to a
fresh key appends it. -/
def jsSet (m : List (String × Nat)) (k : String) (v : Nat) : List (String × Nat) :=
  if m.any (fun p => p.1 = k) then
    m.map (fun p => if p.1 = k then (k, v) else p)
  else m ++ [(k, v)]

/-- JavaScript property read on the votes object (the keys read by the
handler are always present, so the default is never observed). -/
def jsGet (m : List (String × Nat)) (k : String) : Nat :=
  match m.find? (fun p => p.1 = k) with
  | some p => p.2
  | none => 0

/-- The votes object built by GET /api/live-data from the grouped tally
rows: start from aws 0, azure 0, total 0, write each grouped row into the
object, then set total to the aws count plus the azure count. -/
def processVotes (rows : List (String × Nat)) : List (String × Nat) :=
  let m := rows.foldl (fun m r => jsSet m r.1 r.2) [("aws", 0), ("azure", 0), ("total", 0)]
  jsSet m "total" (jsGet m "aws" + jsGet m "azure")

/-- A full system_logs row as returned by the audit tail query. -/
structure SysLogRow where
  id : Nat
  event_type : String
  message : String
  pod_id : String
  created_at : Nat
deriving DecidableEq

/-- Outcome of one GET /api/live-data request: either the merged success
payload or the catch all connectivity failure. -/
inductive LiveDataResult where
  | ok (httpStatus : Nat) (votes : List (String × Nat)) (logs : List SysLogRow)
  | err (httpStatus : Nat) (error : String)
deriving DecidableEq

/-- The GET /api/live-data handler: Promise.all of the tally query and the
audit tail query, so the success path runs only when both results arrived;
a rejection of either lands in the catch block with HTTP 500.  The two
query results are the inputs, none standing for a rejected query. -/
def liveData (voteQ : Option (List (String × Nat))) (logQ : Option (List SysLogRow)) :
    LiveDataResult :=
  match voteQ, logQ with
  | some vr, some lr => .ok 200 (processVotes vr) lr
  | _, _ => .err 500 "Database connectivity interruption"

/-- Descending id order used by the audit tail query. -/
def byIdDesc (a b : SysLogRow) : Prop := b.id ≤ a.id

instance : DecidableRel byIdDesc := fun a b => Nat.decLe b.id a.id

instance : IsTotal SysLogRow byIdDesc := ⟨fun a b => Or.symm (Nat.le_total a.id b.id)⟩

instance : IsTrans SysLogRow byIdDesc := ⟨fun _ _ _ h1 h2 => Nat.le_trans h2 h1⟩

/-- The audit tail query over the whole system_logs table: order by id
descending, then keep the first 50 rows. -/
def tailQuery (table : List SysLogRow) : List SysLogRow :=
  (List.insertionSort byIdDesc table).take 50

/-- GROUP BY candidate over the votes table: one row per distinct
candidate with its count (group order is store chosen and no claim
depends on it; first appearance order is used here). -/
def tallyRows (votes : List String) : List (String × Nat) :=
  (votes.foldl (fun acc c => if acc.contains c then acc else acc ++ [c]) []).map
    (fun c => (c, votes.count c))

/-- Sum of the counts of every candidate key present in the votes object,
the total key excluded. -/
def sumCandidateCounts (m : List (String × Nat)) : Nat :=
  ((m.filter (fun p => p.1 ≠ "total")).map (fun p => p.2)).sum

/-- Claim C1: a write request whose candidate identifier is outside the
fixed set of aws and azure is answered with HTTP 400, status error and
message Invalid candidate, the store is untouched, and no query at all is
issued before the rejection. -/
theorem castVote_invalid_rejected_no_io (candidate : String) (xff remoteAddr : Option String)
    (vf af : Bool) (store : Store)
    (h : candidate ≠ "aws" ∧ candidate ≠ "azure") :
    castVote candidate xff remoteAddr vf af store =
      ⟨⟨400, "error", some "Invalid candidate"⟩, store, []⟩ := by
  obtain ⟨h1, h2⟩ := h
  simp [castVote, h1, h2]

theorem castVote_invalid_rejected_no_io_witness :
    castVote "gcp" (some "1.2.3.4") none false false ⟨[], []⟩ =
      ⟨⟨400, "error", some "Invalid candidate"⟩, ⟨[], []⟩, []⟩ :=
  castVote_invalid_rejected_no_io "gcp" (some "1.2.3.4") none false false ⟨[], []⟩
    (by decide)

/-- Claim C2: for a valid vote whose insert succeeds, the outcome of the
fire and forget audit append never changes the acknowledgement: the
response is the same whether the audit insert fails or succeeds, and when
the audit insert is actually issued (the client origin is defined) that
response is HTTP 200 with status success. -/
theorem castVote_audit_outcome_invisible (candidate : String) (xff remoteAddr : Option String)
    (af : Bool) (store : Store)
    (hc : candidate = "aws" ∨ candidate = "azure")
    (hip : jsOrString xff remoteAddr ≠ none) :
    (castVote candidate xff remoteAddr false af store).response = ⟨200, "success", none⟩ ∧
    (castVote candidate xff remoteAddr false true store).response =
      (castVote candidate xff remoteAddr false false store).response := by
  cases hi : jsOrString xff remoteAddr with
  | none => exact absurd hi hip
  | some ip => exact ⟨by simp [castVote, hc, hi], by simp [castVote, hc, hi]⟩

theorem castVote_audit_outcome_invisible_witness :
    (castVote "aws" (some "1.2.3.4") none false true ⟨[], []⟩).response =
        ⟨200, "success", none⟩ ∧
      (castVote "aws" (some "1.2.3.4") none false true ⟨[], []⟩).response =
        (castVote "aws" (some "1.2.3.4") none false false ⟨[], []⟩).response :=
  castVote_audit_outcome_invisible "aws" (some "1.2.3.4") none true ⟨[], []⟩
    (Or.inl rfl) (by decide)

/-- Claim C3: when the vote insert fails on a valid request, the endpoint
answers HTTP 500 with message Transaction failed, the store is unchanged,
and the only query issued is the vote insert: the audit append is never
issued. -/
theorem castVote_persist_failure_no_audit (candidate : String) (xff remoteAddr : Option String)
    (af : Bool) (store : Store)
    (hc : candidate = "aws" ∨ candidate = "azure") :
    castVote candidate xff remoteAddr true af store =
      ⟨⟨500, "error", some "Transaction failed"⟩, store, [⟨voteInsertSql, [candidate]⟩]⟩ := by
  simp [castVote, hc]

theorem castVote_persist_failure_no_audit_witness :
    castVote "azure" none (some "10.0.0.7") true false ⟨[], []⟩ =
      ⟨⟨500, "error", some "Transaction failed"⟩, ⟨[], []⟩,
        [⟨voteInsertSql, ["azure"]⟩]⟩ :=
  castVote_persist_failure_no_audit "azure" none (some "10.0.0.7") false ⟨[], []⟩
    (Or.inr rfl)

/-- Claim C10: on a valid request with the forwarded header absent and the
socket remote address undefined, a successful vote insert is followed by a
throw while the audit message is built from the undefined origin, so the
endpoint answers the HTTP 500 Transaction failed body although the vote
row is already durable; no audit query is issued and no audit row is
created. -/
theorem castVote_undefined_origin_fails_after_persist (candidate : String) (af : Bool)
    (store : Store) (hc : candidate = "aws" ∨ candidate = "azure") :
    castVote candidate none none false af store =
      ⟨⟨500, "error", some "Transaction failed"⟩,
        ⟨store.votes ++ [candidate], store.logs⟩, [⟨voteInsertSql, [candidate]⟩]⟩ := by
  simp [castVote, hc, jsOrString]

theorem castVote_undefined_origin_fails_after_persist_witness :
    castVote "aws" none none false false ⟨[], []⟩ =
      ⟨⟨500, "error", some "Transaction failed"⟩, ⟨["aws"], []⟩,
        [⟨voteInsertSql, ["aws"]⟩]⟩ :=
  castVote_undefined_origin_fails_after_persist "aws" false ⟨[], []⟩ (Or.inl rfl)

/-- Claim C7: zero grouped vote rows is not an error: whatever the audit
tail returned, the read endpoint answers HTTP 200 with the votes payload
aws 0, azure 0, total 0. -/
theorem liveData_empty_tally_success (logs : List SysLogRow) :
    liveData (some []) (some logs) =
      .ok 200 [("aws", 0), ("azure", 0), ("total", 0)] logs := rfl

/-- Claim C4: the snapshot fails as a whole with the HTTP 500 connectivity
body exactly when at least one of the two queries failed, so no partial
payload exists and the success payload occurs only when both queries
succeeded. -/
theorem liveData_all_or_nothing (vq : Option (List (String × Nat)))
    (lq : Option (List SysLogRow)) :
    liveData vq lq = .err 500 "Database connectivity interruption" ↔
      (vq = none ∨ lq = none) := by
  cases vq <;> cases lq <;> simp [liveData]

/-- Claim C8: three sequential successful aws votes starting from the
empty store, followed by a snapshot, produce the tally aws 3, azure 0,
total 3. -/
theorem three_aws_votes_then_snapshot :
    liveData
      (some (tallyRows
        (((castVote "aws" (some "10.0.0.1") none false false
          (castVote "aws" (some "10.0.0.1") none false false
            (castVote "aws" (some "10.0.0.1") none false false
              ⟨[], []⟩).store).store).store).votes)))
      (some []) =
      .ok 200 [("aws", 3), ("azure", 0), ("total", 3)] [] := by decide

/-- Claim C5 counterexample: a grouped row for the out of set candidate
gcp with count 5 produces a votes object that contains the key gcp with
count 5, yet its total is 0: the total does not equal the sum of the
counts of every candidate present in the object. -/
theorem processVotes_total_ne_sum_cex :
    jsGet (processVotes [("gcp", 5)]) "total" = 0 ∧
      sumCandidateCounts (processVotes [("gcp", 5)]) = 5 ∧
      jsGet (processVotes [("gcp", 5)]) "total" ≠
        sumCandidateCounts (processVotes [("gcp", 5)]) := by decide

/-- Folding grouped rows whose candidates all lie in the fixed set into
the initial votes object only updates the aws and azure slots: the object
keeps exactly the three initial keys, in order, with the total slot
untouched. -/
lemma foldl_jsSet_shape (rows : List (String × Nat))
    (h : ∀ r ∈ rows, r.1 = "aws" ∨ r.1 = "azure") (a b t : Nat) :
    ∃ a2 b2,
      rows.foldl (fun m r => jsSet m r.1 r.2) [("aws", a), ("azure", b), ("total", t)] =
        [("aws", a2), ("azure", b2), ("total", t)] := by
  induction rows generalizing a b t with
  | nil => exact ⟨a, b, rfl⟩
  | cons r rs ih =>
    obtain ⟨k, v⟩ := r
    have hrs : ∀ x ∈ rs, x.1 = "aws" ∨ x.1 = "azure" :=
      fun x hx => h x (List.mem_cons_of_mem _ hx)
    rcases h ⟨k, v⟩ (List.mem_cons_self _ _) with hk | hk <;>
      simp only at hk <;> subst hk
    · have step : jsSet [("aws", a), ("azure", b), ("total", t)] "aws" v =
        [("aws", v), ("azure", b), ("total", t)] := rfl
      rw [List.foldl_cons, step]
      exact ih hrs v b t
    · have step : jsSet [("aws", a), ("azure", b), ("total", t)] "azure" v =
        [("aws", a), ("azure", v), ("total", t)] := rfl
      rw [List.foldl_cons, step]
      exact ih hrs a v t

/-- Claim C5 amended: when every grouped row returned by the tally query
names a candidate in the fixed set (aws or azure), the total of the votes
object equals the sum of the counts of every candidate present in it. -/
theorem processVotes_total_eq_sum (rows : List (String × Nat))
    (h : ∀ r ∈ rows, r.1 = "aws" ∨ r.1 = "azure") :
    jsGet (processVotes rows) "total" = sumCandidateCounts (processVotes rows) := by
  obtain ⟨a2, b2, hshape⟩ := foldl_jsSet_shape rows h 0 0 0
  unfold processVotes
  rw [hshape]
  show a2 + b2 = a2 + (b2 + 0)
  omega

theorem processVotes_total_eq_sum_witness :
    jsGet (processVotes [("aws", 2), ("azure", 1)]) "total" =
      sumCandidateCounts (processVotes [("aws", 2), ("azure", 1)]) :=
  processVotes_total_eq_sum [("aws", 2), ("azure", 1)] (by decide)

/-- Transfer a pairwise relation along a pointwise implication that may
use membership of both elements. -/
lemma pairwise_imp_mem {α : Type} {R S : α → α → Prop} :
    ∀ {l : List α}, (∀ a ∈ l, ∀ b ∈ l, R a b → S a b) → l.Pairwise R → l.Pairwise S := by
  intro l
  induction l with
  | nil => intro _ _; exact List.Pairwise.nil
  | cons x xs ih =>
    intro h hp
    rcases List.pairwise_cons.mp hp with ⟨hx, hxs⟩
    refine List.Pairwise.cons ?_ ?_
    · intro b hb
      exact h x (List.mem_cons_self _ _) b (List.mem_cons_of_mem _ hb) (hx b hb)
    · exact ih (fun a ha b hb => h a (List.mem_cons_of_mem _ ha) b (List.mem_cons_of_mem _ hb))
        hxs

/-- Claim C6: the audit tail never holds more than the configured 50
entries, and whenever the store assigned timestamps are monotone in the
auto increment id over the table (a later id never carries an earlier
timestamp), the returned entries are most recent first: pairwise non
increasing in created_at. -/
theorem tailQuery_bounded_and_ordered (table : List SysLogRow)
    (hmono : ∀ a ∈ table, ∀ b ∈ table, a.id ≤ b.id → a.created_at ≤ b.created_at) :
    (tailQuery table).length ≤ 50 ∧
      (tailQuery table).Pairwise (fun a b => b.created_at ≤ a.created_at) := by
  have hsub : List.Sublist (tailQuery table) (List.insertionSort byIdDesc table) :=
    List.take_sublist _ _
  constructor
  · have : (tailQuery table).length = min 50 (List.insertionSort byIdDesc table).length :=
      List.length_take _ _
    omega
  · have hsorted : (List.insertionSort byIdDesc table).Pairwise byIdDesc :=
      List.sorted_insertionSort byIdDesc table
    have hp : (tailQuery table).Pairwise byIdDesc := hsorted.sublist hsub
    have hmem : ∀ x ∈ tailQuery table, x ∈ table := fun x hx =>
      (List.perm_insertionSort byIdDesc table).subset (hsub.subset hx)
    exact pairwise_imp_mem
      (fun a ha b hb hr => hmono b (hmem b hb) a (hmem a ha) hr) hp

theorem tailQuery_bounded_and_ordered_witness :
    (tailQuery [⟨2, "VOTE_TX", "m2", "p", 20⟩, ⟨1, "VOTE_TX", "m1", "p", 10⟩]).length ≤ 50 ∧
      (tailQuery [⟨2, "VOTE_TX", "m2", "p", 20⟩, ⟨1, "VOTE_TX", "m1", "p", 10⟩]).Pairwise
        (fun a b => b.created_at ≤ a.created_at) :=
  tailQuery_bounded_and_ordered
    [⟨2, "VOTE_TX", "m2", "p", 20⟩, ⟨1, "VOTE_TX", "m1", "p", 10⟩] (by decide)

/-- Claim C9: every query the write path hands to the executor carries one
of the two fixed SQL texts, so the statement string is a constant
independent of the request input; the request derived values travel only
in the positional parameter list. -/
theorem castVote_sql_constant (candidate : String) (xff remoteAddr : Option String)
    (vf af : Bool) (store : Store) (q : IssuedQuery)
    (hq : q ∈ (castVote candidate xff remoteAddr vf af store).trace) :
    q.sql = voteInsertSql ∨ q.sql = auditInsertSql := by
  by_cases hc : candidate = "aws" ∨ candidate = "azure"
  · cases vf with
    | true =>
      simp only [castVote, if_pos hc, if_true, List.mem_singleton] at hq
      subst hq
      exact Or.inl rfl
    | false =>
      cases hi : jsOrString xff remoteAddr with
      | none =>
        simp [castVote, if_pos hc, hi] at hq
        subst hq
        exact Or.inl rfl
      | some ip =>
        simp [castVote, if_pos hc, hi] at hq
        rcases hq with hq | hq <;> subst hq
        · exact Or.inl rfl
        · exact Or.inr rfl
  · simp only [castVote, if_neg hc, List.not_mem_nil] at hq

theorem castVote_sql_constant_witness :
    (⟨voteInsertSql, ["aws"]⟩ : IssuedQuery).sql = voteInsertSql ∨
      (⟨voteInsertSql, ["aws"]⟩ : IssuedQuery).sql = auditInsertSql :=
  castVote_sql_constant "aws" none (some "9.9.9.9") true false ⟨[], []⟩
    ⟨voteInsertSql, ["aws"]⟩ (by decide)

end CloudVote
